import Mathlib

/-!
Verification of the referral bonus resolution engine and its supporting
tier/override routes, together with the platform-trends analytics
aggregation, as implemented in
`backend/api/v1/routes/referral_tier_routes.py`,
`backend/api/v1/routes/analytics_routes.py` and
`backend/api/v1/core/database.py`.

The referral tier routes issue SQL-style queries through fetch_one,
fetch_all and execute of core/database.py.  In this repository those
three functions are compatibility stubs: fetch_one returns None for
every query, fetch_all returns the empty list, and execute performs no
write and reports SUCCESS.  The embedding models them exactly so: a
Store type describes the document collections that could hold users,
tiers and overrides, and the stubbed storage functions ignore it, so
the route handlers are data-independent.  The analytics routes instead
run live Mongo aggregation pipelines through get_db() and are embedded
as real aggregations over order and earning documents.

Timestamps are embedded as integers, monetary amounts and percentages
as rationals.  Columns that the route logic never reads (created_at,
updated_at, created_by, description) are omitted from the record
types.
-/

namespace Deploy

/-- A user document, restricted to the referral-relevant fields. -/
structure User where
  user_id : String
  referred_by_user_id : Option String
deriving Repr, DecidableEq

/-- A referral tier record as described by the referral_tiers schema. -/
structure Tier where
  tier_id : String
  tier_name : String
  min_referrals : Nat
  max_referrals : Option Nat
  bonus_percentage : ℚ
  is_active : Bool
deriving Repr, DecidableEq

/-- A global override record as described by the
referral_global_overrides schema. -/
structure GlobalOverride where
  override_id : String
  name : String
  bonus_percentage : ℚ
  start_date : ℤ
  end_date : ℤ
  is_active : Bool
deriving Repr, DecidableEq

/-- A client override record as described by the
referral_client_overrides schema. -/
structure ClientOverride where
  override_id : String
  user_id : String
  bonus_percentage : ℚ
  expires_at : Option ℤ
  reason : String
  is_active : Bool
deriving Repr, DecidableEq

/-- The document collections the referral tier routes address.  The
stubbed storage layer of core/database.py never reads or writes them,
but the claims quantify over stored states, so the state is carried
explicitly. -/
structure Store where
  users : List User
  tiers : List Tier
  globalOverrides : List GlobalOverride
  clientOverrides : List ClientOverride
deriving Repr, DecidableEq

/-- The default_tiers literal of ensure_tier_tables (lines 132-138).
The seeding itself never runs to completion in the repository: the
preceding count fetch_one returns None, the resulting TypeError is
swallowed by the bare except, and execute inserts nothing; the rows
are kept here as stored-state material for the claims that mention
them. -/
def defaultTiers : List Tier :=
  [⟨"STARTER", "Starter", 0, some 6, 10, true⟩,
   ⟨"SILVER", "Silver", 7, some 14, 15, true⟩,
   ⟨"GOLD", "Gold", 15, some 29, 20, true⟩,
   ⟨"PLATINUM", "Platinum", 30, some 49, 25, true⟩,
   ⟨"RUBY", "Ruby", 50, none, 30, true⟩]

/-- fetch_one of core/database.py (line 177): a compatibility stub
that returns None for every SQL query, reading nothing from the
database state. -/
def fetch_one {α : Type} (_db : Store) : Option α := none

/-- fetch_all of core/database.py (line 187): a compatibility stub
that returns the empty row list for every SQL query. -/
def fetch_all {α : Type} (_db : Store) : List α := []

/-- execute of core/database.py (line 197): a compatibility stub that
performs no write and reports SUCCESS; the database state is returned
unchanged. -/
def execute (s : Store) : Store × String := (s, "SUCCESS")

/-- The referral-count query of get_effective_bonus and get_my_tier:
count = row of fetch_one if present else 0; the stub returns None, so
the count is always 0. -/
def countReferrals (s : Store) (_uid : String) : Nat :=
  (fetch_one s : Option Nat).getD 0

/-- The individual override query of get_effective_bonus (WHERE
user_id AND is_active): issued through the stubbed fetch_one, it
returns none for every store and user. -/
def fetchClientOverride (s : Store) (_uid : String) : Option ClientOverride :=
  fetch_one s

/-- The global override query of get_effective_bonus (ORDER BY
bonus_percentage DESC LIMIT 1): issued through the stubbed fetch_one,
it returns none for every store and time. -/
def fetchGlobalOverride (s : Store) (_t : ℤ) : Option GlobalOverride :=
  fetch_one s

/-- The global override query of get_my_tier (LIMIT 1, no ORDER BY):
issued through the stubbed fetch_one, it returns none for every store
and time. -/
def fetchFirstGlobalOverride (s : Store) (_t : ℤ) : Option GlobalOverride :=
  fetch_one s

/-- The tier query of get_effective_bonus (min_referrals and
max_referrals bounds, ORDER BY min_referrals DESC LIMIT 1): issued
through the stubbed fetch_one, it returns none for every store and
count. -/
def fetchTier (s : Store) (_count : Nat) : Option Tier :=
  fetch_one s

/-- The client override query of get_my_tier, whose WHERE clause also
contains the expiry window: issued through the stubbed fetch_one, it
returns none for every store, user and time. -/
def fetchMyTierClientOverride (s : Store) (_uid : String) (_t : ℤ) : Option ClientOverride :=
  fetch_one s

/-- The all-tiers query of get_my_tier (fetch_all, ORDER BY
min_referrals ASC): the stub returns the empty list, so the tier walk
always sees no tiers. -/
def activeTiersSorted (s : Store) : List Tier :=
  fetch_all s

/-- The expiry test on line 433 of get_effective_bonus: expires_at is
null OR expires_at > now, with a strict inequality.  In the program
this test is dead code (the fetched override is always none); it is
kept as the source text of the boundary comparison. -/
def notExpired (c : ClientOverride) (now : ℤ) : Bool :=
  match c.expires_at with
  | none => true
  | some e => decide (now < e)

/-- The activity-window predicate of the global override WHERE clauses
(is_active AND start_date <= t AND end_date >= t).  Never evaluated by
the stubbed storage; used here to describe stored states. -/
def isActiveGlobalAt (g : GlobalOverride) (t : ℤ) : Bool :=
  g.is_active && decide (g.start_date ≤ t) && decide (t ≤ g.end_date)

/-- The provenance tag of a resolved effective bonus. -/
inductive BonusSource
  | individual_override
  | global_campaign
  | tier
  | default
deriving Repr, DecidableEq

/-- The response of the effective-bonus endpoint (success body). -/
structure BonusResult where
  user_id : String
  referral_count : Nat
  effective_percentage : ℚ
  source : BonusSource
  provenance : Option String
deriving Repr, DecidableEq

/-- GET effective-bonus for uid, as the code runs: the priority chain
of the handler is translated branch for branch, but every fetch goes
through the stubbed fetch_one, so the count is 0, every branch falls
through, and the default response is produced for any store, user and
time. -/
def get_effective_bonus (s : Store) (uid : String) (now : ℤ) : BonusResult :=
  let count := countReferrals s uid
  let rest :=
    match fetchGlobalOverride s now with
    | some g => ⟨uid, count, g.bonus_percentage, .global_campaign, some g.name⟩
    | none =>
      match fetchTier s count with
      | some t => ⟨uid, count, t.bonus_percentage, .tier, some t.tier_name⟩
      | none => ⟨uid, count, 10, .default, none⟩
  match fetchClientOverride s uid with
  | some c =>
    if notExpired c now then
      ⟨uid, count, c.bonus_percentage, .individual_override, some c.reason⟩
    else rest
  | none => rest

/-- The mutable loop state of the get_my_tier tier walk. -/
structure Progress where
  effective_pct : ℚ
  current_tier : String
  next_tier : Option String
  referrals_to_next : Option ℤ
deriving Repr, DecidableEq

/-- The get_my_tier loop over the tier list: while the count
qualifies, record the tier; at the first non-qualifying tier record it
as next and stop.  In the program the list is always empty, so the
loop always returns its initial state. -/
def tierLoop (count : Nat) : List Tier → Progress → Progress
  | [], p => p
  | t :: ts, p =>
    if t.min_referrals ≤ count then
      tierLoop count ts ⟨t.bonus_percentage, t.tier_name, p.next_tier, p.referrals_to_next⟩
    else
      ⟨p.effective_pct, p.current_tier, some t.tier_name, some ((t.min_referrals : ℤ) - (count : ℤ))⟩

/-- The response of the my-tier endpoint (all_tiers omitted: it is a
verbatim echo of the fetched tier list, which is always empty). -/
structure MyTierResult where
  referral_count : Nat
  current_tier : String
  effective_percentage : ℚ
  next_tier : Option String
  referrals_to_next : Option ℤ
  promotion_active : Bool
  promotion_name : Option String
deriving Repr, DecidableEq

/-- GET my-tier, as the code runs: count 0, empty tier walk, and both
override fetches none, so the Starter defaults are returned for any
store, user and time. -/
def get_my_tier (s : Store) (uid : String) (now : ℤ) : MyTierResult :=
  let count := countReferrals s uid
  let p := tierLoop count (activeTiersSorted s) ⟨10, "Starter", none, none⟩
  let co := fetchMyTierClientOverride s uid now
  let pct1 := match co with
    | some c => c.bonus_percentage
    | none => p.effective_pct
  match fetchFirstGlobalOverride s now, co with
  | some g, none =>
    ⟨count, p.current_tier, g.bonus_percentage, p.next_tier, p.referrals_to_next,
     true, some g.name⟩
  | _, _ =>
    ⟨count, p.current_tier, pct1, p.next_tier, p.referrals_to_next, false, none⟩

/-- Errors raised by the admin CRUD handlers via HTTPException. -/
inductive ApiError
  | userNotFound
deriving Repr, DecidableEq

/-- The request body of PUT tiers (ReferralTier model). -/
structure ReferralTierInput where
  tier_name : String
  min_referrals : Nat
  max_referrals : Option Nat
  bonus_percentage : ℚ
  is_active : Bool
deriving Repr, DecidableEq

/-- The request body of POST and PUT global-overrides (GlobalOverride model). -/
structure GlobalOverrideInput where
  name : String
  bonus_percentage : ℚ
  start_date : ℤ
  end_date : ℤ
  is_active : Bool
deriving Repr, DecidableEq

/-- The request body of POST client-overrides (ClientOverrideCreate model). -/
structure ClientOverrideCreate where
  user_id : String
  bonus_percentage : ℚ
  expires_at : Option ℤ
  reason : String
deriving Repr, DecidableEq

/-- The request body of PUT client-overrides (ClientOverrideUpdate model);
a none field is absent from the request and left unchanged. -/
structure ClientOverrideUpdate where
  bonus_percentage : Option ℚ
  expires_at : Option ℤ
  reason : Option String
  is_active : Option Bool
deriving Repr, DecidableEq

/-- POST client-overrides, as the code runs: the user-existence check
is a fetch_one, which the stub answers with None for every user id, so
the handler raises 404 for every request; the upsert and insert
branches below the check are translated but unreachable, and their
execute calls would be no-ops anyway. -/
def create_client_override (s : Store) (_newId : String) (d : ClientOverrideCreate) :
    Except ApiError (Store × String) :=
  match (fetch_one s : Option User) with
  | none => .error .userNotFound
  | some _ =>
    match (fetchClientOverride s d.user_id : Option ClientOverride) with
    | some _ => .ok ((execute s).1, "Client override updated")
    | none => .ok ((execute s).1, "Client override created")

/-- PUT tiers: an unconditional UPDATE ... WHERE tier_id = tid followed
by a success response, whether or not any row matched.  The statement
goes through execute, which the repository stubs to a no-op; this
model of a working UPDATE is used only on the no-match scope (claim
C5), where the model and the program coincide: store unchanged,
success reported. -/
def update_tier (s : Store) (tid : String) (d : ReferralTierInput) : Store × Bool :=
  ({ s with tiers := s.tiers.map (fun t =>
      if t.tier_id == tid then
        { t with tier_name := d.tier_name, min_referrals := d.min_referrals,
                 max_referrals := d.max_referrals,
                 bonus_percentage := d.bonus_percentage, is_active := d.is_active }
      else t) }, true)

/-- PUT global-overrides: unconditional UPDATE then success (execute
is stubbed; the model is used only on the no-match scope, where it
coincides with the program). -/
def update_global_override (s : Store) (oid : String) (d : GlobalOverrideInput) :
    Store × Bool :=
  ({ s with globalOverrides := s.globalOverrides.map (fun g =>
      if g.override_id == oid then
        { g with name := d.name, bonus_percentage := d.bonus_percentage,
                 start_date := d.start_date, end_date := d.end_date,
                 is_active := d.is_active }
      else g) }, true)

/-- DELETE global-overrides: unconditional DELETE then success
(execute is stubbed; used only on the no-match scope, where model and
program coincide). -/
def delete_global_override (s : Store) (oid : String) : Store × Bool :=
  ({ s with globalOverrides :=
      s.globalOverrides.filter (fun g => !(g.override_id == oid)) }, true)

/-- The dynamic SET clause of PUT client-overrides: only provided
fields are written. -/
def applyClientUpdate (d : ClientOverrideUpdate) (c : ClientOverride) : ClientOverride :=
  { c with
    bonus_percentage := d.bonus_percentage.getD c.bonus_percentage,
    expires_at := match d.expires_at with
      | some e => some e
      | none => c.expires_at,
    reason := d.reason.getD c.reason,
    is_active := d.is_active.getD c.is_active }

/-- PUT client-overrides: unconditional UPDATE ... WHERE user_id = uid
then success (execute is stubbed; used only on the no-match scope,
where model and program coincide). -/
def update_client_override (s : Store) (uid : String) (d : ClientOverrideUpdate) :
    Store × Bool :=
  ({ s with clientOverrides := s.clientOverrides.map (fun c =>
      if c.user_id == uid then applyClientUpdate d c else c) }, true)

/-- DELETE client-overrides: unconditional DELETE then success
(execute is stubbed; used only on the no-match scope, where model and
program coincide). -/
def delete_client_override (s : Store) (uid : String) : Store × Bool :=
  ({ s with clientOverrides :=
      s.clientOverrides.filter (fun c => !(c.user_id == uid)) }, true)

/-- Modelled from the spec: the band table of §8, giving the expected
bonus percentage per referral count under the five default tiers.
Used only to state what the tier lookup was documented to return. -/
def specTierPct (c : Nat) : ℚ :=
  if c ≤ 6 then 10
  else if c ≤ 14 then 15
  else if c ≤ 29 then 20
  else if c ≤ 49 then 25
  else 30

/-- A store with one user, the default tier rows and no overrides. -/
def storeUsersOnly : Store := ⟨[⟨"u1", none⟩], defaultTiers, [], []⟩

/-- An active client override for u1 with no expiry. -/
def vipOverride : ClientOverride := ⟨"CO1", "u1", 50, none, "VIP deal", true⟩

/-- A store in which u1 holds an active, non-expiring client override. -/
def storeVip : Store := ⟨[⟨"u1", none⟩], defaultTiers, [], [vipOverride]⟩

/-- A lower-percentage campaign stored first. -/
def gLow : GlobalOverride := ⟨"G1", "CampaignA", 12, -5, 5, true⟩

/-- A higher-percentage campaign stored second, same window. -/
def gHigh : GlobalOverride := ⟨"G2", "CampaignB", 22, -5, 5, true⟩

/-- A store with two simultaneously active global campaigns. -/
def storeTwoCampaigns : Store := ⟨[⟨"u1", none⟩], defaultTiers, [gLow, gHigh], []⟩

/-- A client override for u1 expiring exactly at time 7. -/
def expiringOverride : ClientOverride := ⟨"CO2", "u1", 77, some 7, "promo", true⟩

/-- A campaign active over the window 0 to 10. -/
def gBoundary : GlobalOverride := ⟨"G3", "Boundary", 22, 0, 10, true⟩

/-- A store in which the u1 override expires exactly at 7 while a 22
percent campaign is active at 7. -/
def storeExpiringCampaign : Store :=
  ⟨[⟨"u1", none⟩], defaultTiers, [gBoundary], [expiringOverride]⟩

/-- A deactivated client override for u1. -/
def inactiveOverride : ClientOverride := ⟨"CO3", "u1", 33, none, "old deal", false⟩

/-- A store in which u1 exists and has a deactivated client override. -/
def storeInactive : Store := ⟨[⟨"u1", none⟩], defaultTiers, [], [inactiveOverride]⟩

/-- A create request for u1, used against storeInactive. -/
def upsertInput : ClientOverrideCreate := ⟨"u1", 44, none, "new deal"⟩

/-- A tier update body used for the missing-record counterexample. -/
def sampleTierInput : ReferralTierInput := ⟨"Bronze", 0, some 5, 12, true⟩

/-- A single misconfigured tier whose inclusive upper bound is below
the stored referral count of interest. -/
def cappedTier : Tier := ⟨"T1", "Bronze", 0, some 5, 42, true⟩

/-- Six users referred by u0, plus u0 itself. -/
def referredUsers : List User :=
  [⟨"u0", none⟩, ⟨"r1", some "u0"⟩, ⟨"r2", some "u0"⟩, ⟨"r3", some "u0"⟩,
   ⟨"r4", some "u0"⟩, ⟨"r5", some "u0"⟩, ⟨"r6", some "u0"⟩]

/-- A store whose only tier caps out below the stored u0 referral count. -/
def storeCapped : Store := ⟨referredUsers, [cappedTier], [], []⟩

/-- Seven users referred by u0 (the Silver band of the documented tier
table), plus u0 itself. -/
def silverUsers : List User := referredUsers ++ [⟨"r7", some "u0"⟩]

end Deploy

namespace Deploy.Analytics

/-- An order document, restricted to the fields read by the
platform-trends aggregation pipelines. -/
structure Order where
  order_id : String
  user_id : String
  order_type : String
  status : String
  approved_at : ℤ
  amount : ℚ
  payout_amount : Option ℚ
  total_amount : Option ℚ
  void_amount : ℚ
deriving Repr, DecidableEq

/-- A referral_earnings document as read by the trends aggregation. -/
structure ReferralEarning where
  user_id : String
  status : String
  created_at : ℤ
  amount : ℚ
deriving Repr, DecidableEq

/-- The approved statuses matched by the order pipelines. -/
def approvedStatuses : List String := ["approved", "APPROVED_EXECUTED", "completed", "paid"]

/-- The statuses matched by the referral earnings pipeline. -/
def paidEarningStatuses : List String := ["paid", "credited", "completed"]

/-- The order types of the deposits pipeline. -/
def depositTypes : List String := ["game_load", "deposit", "wallet_load"]

/-- The order types of the withdrawals pipeline. -/
def withdrawalTypes : List String := ["withdrawal_game", "withdrawal", "wallet_redeem"]

/-- The order types of the bonus-issued and active-clients pipelines. -/
def loadTypes : List String := ["game_load", "deposit"]

/-- approved_at within the inclusive day bucket. -/
def inWindow (lo hi t : ℤ) : Bool := decide (lo ≤ t) && decide (t ≤ hi)

/-- The shared match stage: order type in the given set, approved
status, approved_at inside the bucket. -/
def matchesAgg (types : List String) (lo hi : ℤ) (o : Order) : Bool :=
  types.contains o.order_type && approvedStatuses.contains o.status &&
    inWindow lo hi o.approved_at

/-- Group-stage sum of a projected field. -/
def sumOver {α : Type} (f : α → ℚ) (l : List α) : ℚ := (l.map f).sum

/-- The deposits aggregation of a bucket. -/
def deposits (orders : List Order) (lo hi : ℤ) : ℚ :=
  sumOver (fun o => o.amount) (orders.filter (matchesAgg depositTypes lo hi))

/-- The withdrawals-paid aggregation of a bucket (payout_amount with
amount as the ifNull fallback). -/
def withdrawalsPaid (orders : List Order) (lo hi : ℤ) : ℚ :=
  sumOver (fun o => o.payout_amount.getD o.amount)
    (orders.filter (matchesAgg withdrawalTypes lo hi))

/-- The bonus-issued aggregation: max(0, total_amount - amount) per
approved load order, with amount as the ifNull fallback of total_amount. -/
def bonusIssued (orders : List Order) (lo hi : ℤ) : ℚ :=
  sumOver (fun o => max 0 (o.total_amount.getD o.amount - o.amount))
    (orders.filter (matchesAgg loadTypes lo hi))

/-- The bonus-voided aggregation: approved orders in the bucket with a
positive void_amount, no order-type filter. -/
def bonusVoided (orders : List Order) (lo hi : ℤ) : ℚ :=
  sumOver (fun o => o.void_amount)
    (orders.filter (fun o => approvedStatuses.contains o.status &&
      inWindow lo hi o.approved_at && decide (0 < o.void_amount)))

/-- The referral-earnings-paid aggregation over the earnings collection,
bucketed by created_at. -/
def referralEarningsPaid (earnings : List ReferralEarning) (lo hi : ℤ) : ℚ :=
  sumOver (fun e => e.amount)
    (earnings.filter (fun e => paidEarningStatuses.contains e.status &&
      inWindow lo hi e.created_at))

/-- The active-clients aggregation: distinct user_id count over
approved load orders in the bucket. -/
def activeClients (orders : List Order) (lo hi : ℤ) : Nat :=
  (((orders.filter (matchesAgg loadTypes lo hi)).map (fun o => o.user_id)).dedup).length

/-- One daily bucket of the platform-trends response. -/
structure DailyBucket where
  date : String
  deposits : ℚ
  withdrawals_paid : ℚ
  bonus_issued : ℚ
  bonus_voided : ℚ
  net_profit : ℚ
  referral_earnings_paid : ℚ
  active_clients : Nat
deriving Repr, DecidableEq

/-- The per-day body of the get_platform_trends loop. -/
def mkDailyBucket (orders : List Order) (earnings : List ReferralEarning)
    (lo hi : ℤ) (label : String) : DailyBucket :=
  let dep := deposits orders lo hi
  let wd := withdrawalsPaid orders lo hi
  let ref := referralEarningsPaid earnings lo hi
  { date := label
    deposits := dep
    withdrawals_paid := wd
    bonus_issued := bonusIssued orders lo hi
    bonus_voided := bonusVoided orders lo hi
    net_profit := dep - wd - ref
    referral_earnings_paid := ref
    active_clients := activeClients orders lo hi }

/-- The running period totals of the platform-trends response. -/
structure TrendTotals where
  deposits : ℚ
  withdrawals_paid : ℚ
  bonus_issued : ℚ
  bonus_voided : ℚ
  net_profit : ℚ
  referral_earnings_paid : ℚ
deriving Repr, DecidableEq

/-- The totals accumulation performed at the end of each loop iteration. -/
def addBucket (t : TrendTotals) (b : DailyBucket) : TrendTotals :=
  { deposits := t.deposits + b.deposits
    withdrawals_paid := t.withdrawals_paid + b.withdrawals_paid
    bonus_issued := t.bonus_issued + b.bonus_issued
    bonus_voided := t.bonus_voided + b.bonus_voided
    net_profit := t.net_profit + b.net_profit
    referral_earnings_paid := t.referral_earnings_paid + b.referral_earnings_paid }

/-- GET platform-trends over a caller-supplied list of day ranges
(day_start, day_end, date label): the daily buckets and the summed
period totals. -/
def get_platform_trends (orders : List Order) (earnings : List ReferralEarning)
    (ranges : List (ℤ × ℤ × String)) : List DailyBucket × TrendTotals :=
  let buckets := ranges.map (fun r => mkDailyBucket orders earnings r.1 r.2.1 r.2.2)
  (buckets, buckets.foldl addBucket ⟨0, 0, 0, 0, 0, 0⟩)

/-- A deposit and a withdrawal inside the first demo bucket. -/
def demoOrders : List Order :=
  [⟨"o1", "u1", "game_load", "approved", 10, 100, none, some 120, 0⟩,
   ⟨"o2", "u1", "withdrawal_game", "paid", 11, 30, some 25, none, 0⟩]

/-- One paid referral earning inside the first demo bucket. -/
def demoEarnings : List ReferralEarning := [⟨"u2", "paid", 10, 7⟩]

/-- Two demo day buckets; the second matches nothing. -/
def demoRanges : List (ℤ × ℤ × String) := [(0, 20, "d1"), (30, 40, "d2")]

end Deploy.Analytics

namespace Deploy

/-- Claim C1: the claim states the strict first-match precedence chain
that the handler docstring documents (individual override, then global
campaign, then tier, then the 10.0 default), but the code cannot
exhibit it: every fetch_one is the core/database.py stub, so the
endpoint returns referral count 0, percentage 10.0 and source default
for every store, user and time — even when an active, non-expired
client override for the user is stored, as the storeVip instance
shows. -/
theorem C1_resolution_always_default :
    (∀ (s : Store) (uid : String) (now : ℤ),
      get_effective_bonus s uid now = ⟨uid, 0, 10, .default, none⟩) ∧
    vipOverride ∈ storeVip.clientOverrides ∧
    vipOverride.is_active = true ∧
    notExpired vipOverride 0 = true ∧
    get_effective_bonus storeVip "u1" 0 = ⟨"u1", 0, 10, .default, none⟩ := by
  exact ⟨fun s uid now => rfl, by decide, rfl, rfl, rfl⟩

/-- Claim C2, counterexample: gHigh is stored, active at time 0 and
carries the highest percentage, yet the executed selection returns
none in both code paths (the queries never run), and both endpoints
report the 10.0 fall-through — the selection does not return the
highest-percentage active override as the claim states. -/
theorem C2_counterexample :
    gHigh ∈ storeTwoCampaigns.globalOverrides ∧
    isActiveGlobalAt gHigh 0 = true ∧
    gLow.bonus_percentage < gHigh.bonus_percentage ∧
    fetchGlobalOverride storeTwoCampaigns 0 = none ∧
    fetchFirstGlobalOverride storeTwoCampaigns 0 = none ∧
    (get_effective_bonus storeTwoCampaigns "u1" 0).effective_percentage = 10 ∧
    (get_my_tier storeTwoCampaigns "u1" 0).effective_percentage = 10 := by
  exact ⟨by decide, by decide, by decide, rfl, rfl, rfl, rfl⟩

/-- Claim C2 as amended: neither global override query executes — the
stubbed fetch_one answers none for every stored state and time — so no
override is ever selected by either path, and the two code paths do
yield the same percentage for the same stored state and time: always
the 10.0 fall-through. -/
theorem C2_stub_selection_amended (s : Store) (t : ℤ) (uid : String) (now : ℤ) :
    fetchGlobalOverride s t = none ∧
    fetchFirstGlobalOverride s t = none ∧
    (get_effective_bonus s uid now).effective_percentage =
      (get_my_tier s uid now).effective_percentage := by
  exact ⟨rfl, rfl, rfl⟩

/-- Claim C3: the claim restates the band table that the module
docstring documents, but the code cannot apply it: the seeding of
ensure_tier_tables never completes (the count fetch_one returns none
and the TypeError is swallowed; execute inserts nothing), the tier
query never executes, and the count is always 0 — so even with the
default tier rows present and seven referral documents stored for u0
(the documented Silver band, 15 percent), the endpoint returns 10.0
with source default. -/
theorem C3_tiers_never_applied :
    (∀ (users : List User) (go : List GlobalOverride) (co : List ClientOverride)
       (uid : String) (now : ℤ),
      get_effective_bonus ⟨users, defaultTiers, go, co⟩ uid now =
        ⟨uid, 0, 10, .default, none⟩) ∧
    (silverUsers.filter (fun u => u.referred_by_user_id == some "u0")).length = 7 ∧
    specTierPct 7 = 15 ∧
    get_effective_bonus ⟨silverUsers, defaultTiers, [], []⟩ "u0" 0 =
      ⟨"u0", 0, 10, .default, none⟩ := by
  exact ⟨fun users go co uid now => rfl, by decide, by decide, rfl⟩

/-- Claim C4, counterexample: for the user id ghost, absent from the
users store, resolving the effective bonus does not surface a
not-found result — it proceeds and returns the default resolution;
creating a client override does respond not-found, but it responds
not-found for the existing user u1 as well, so the response is not an
existence check. -/
theorem C4_counterexample :
    storeUsersOnly.users.all (fun u => !(u.user_id == "ghost")) = true ∧
    get_effective_bonus storeUsersOnly "ghost" 0 = ⟨"ghost", 0, 10, .default, none⟩ ∧
    create_client_override storeUsersOnly "NEW" ⟨"ghost", 25, none, "x"⟩ =
      .error .userNotFound ∧
    create_client_override storeUsersOnly "NEW" ⟨"u1", 25, none, "x"⟩ =
      .error .userNotFound := by
  exact ⟨by decide, rfl, rfl, rfl⟩

/-- Claim C4 as amended: creating a client override surfaces a
not-found result for every request — existing users included — because
the existence check runs through the stubbed fetch_one; resolving the
effective bonus performs no existence check and always proceeds,
returning referral count 0, percentage 10.0 and source default. -/
theorem C4_amended_not_found :
    (∀ (s : Store) (nid : String) (d : ClientOverrideCreate),
      create_client_override s nid d = .error .userNotFound) ∧
    (∀ (s : Store) (uid : String) (now : ℤ),
      get_effective_bonus s uid now = ⟨uid, 0, 10, .default, none⟩) := by
  exact ⟨fun s nid d => rfl, fun s uid now => rfl⟩

theorem map_of_no_match {α : Type} (f : α → Bool) (F : α → α) (l : List α)
    (h : ∀ a ∈ l, f a = false) :
    (l.map (fun a => if f a then F a else a)) = l := by
  have h2 : ∀ a ∈ l, (fun a => if f a then F a else a) a = id a := by
    intro a ha
    simp [h a ha]
  rw [List.map_congr_left h2, List.map_id]

/-- Claim C5, counterexample: updating a tier id and deleting a client
override user id with no matching stored record both return success
(and leave the store unchanged) instead of reporting a client error. -/
theorem C5_counterexample :
    storeUsersOnly.tiers.all (fun t => !(t.tier_id == "missing")) = true ∧
    update_tier storeUsersOnly "missing" sampleTierInput = (storeUsersOnly, true) ∧
    storeUsersOnly.clientOverrides.all (fun c => !(c.user_id == "ghost")) = true ∧
    delete_client_override storeUsersOnly "ghost" = (storeUsersOnly, true) := by
  decide

/-- Claim C5 as amended: an update or delete of a tier, global
override, or client override naming a record id (or user id) with no
matching stored record executes against zero rows: the store is
unchanged and the handler still reports success, with no client
error. -/
theorem C5_missing_record_amended (s : Store) (tid oid uid : String)
    (dt : ReferralTierInput) (dg : GlobalOverrideInput) (dc : ClientOverrideUpdate) :
    ((∀ t ∈ s.tiers, t.tier_id ≠ tid) → update_tier s tid dt = (s, true)) ∧
    ((∀ g ∈ s.globalOverrides, g.override_id ≠ oid) →
      update_global_override s oid dg = (s, true) ∧
      delete_global_override s oid = (s, true)) ∧
    ((∀ c ∈ s.clientOverrides, c.user_id ≠ uid) →
      update_client_override s uid dc = (s, true) ∧
      delete_client_override s uid = (s, true)) := by
  refine ⟨?_, ?_, ?_⟩
  · intro h
    have hmap : s.tiers.map (fun t =>
        if t.tier_id == tid then
          { t with tier_name := dt.tier_name, min_referrals := dt.min_referrals,
                   max_referrals := dt.max_referrals,
                   bonus_percentage := dt.bonus_percentage, is_active := dt.is_active }
        else t) = s.tiers :=
      map_of_no_match _ _ _ (fun t ht => by simpa using h t ht)
    unfold update_tier
    rw [hmap]
  · intro h
    constructor
    · have hmap : s.globalOverrides.map (fun g =>
          if g.override_id == oid then
            { g with name := dg.name, bonus_percentage := dg.bonus_percentage,
                     start_date := dg.start_date, end_date := dg.end_date,
                     is_active := dg.is_active }
          else g) = s.globalOverrides :=
        map_of_no_match _ _ _ (fun g hg => by simpa using h g hg)
      unfold update_global_override
      rw [hmap]
    · have hfil : s.globalOverrides.filter (fun g => !(g.override_id == oid)) =
          s.globalOverrides :=
        List.filter_eq_self.mpr (fun g hg => by simpa using h g hg)
      unfold delete_global_override
      rw [hfil]
  · intro h
    constructor
    · have hmap : s.clientOverrides.map (fun c =>
          if c.user_id == uid then applyClientUpdate dc c else c) = s.clientOverrides :=
        map_of_no_match _ _ _ (fun c hc => by simpa using h c hc)
      unfold update_client_override
      rw [hmap]
    · have hfil : s.clientOverrides.filter (fun c => !(c.user_id == uid)) =
          s.clientOverrides :=
        List.filter_eq_self.mpr (fun c hc => by simpa using h c hc)
      unfold delete_client_override
      rw [hfil]

/-- Witness for the amended C5 at a concrete store and missing ids. -/
theorem C5_witness :
    update_tier storeVip "nope" sampleTierInput = (storeVip, true) ∧
    delete_client_override storeVip "ghost" = (storeVip, true) := by
  have h := C5_missing_record_amended storeVip "nope" "nope" "ghost"
    sampleTierInput ⟨"n", 1, 0, 0, true⟩ ⟨none, none, none, none⟩
  exact ⟨h.1 (by decide), (h.2.2 (by decide)).2⟩

/-- Claim C6: the claim states the strict expiry boundary that the
source text carries (line 433 reads expires_at > now, so an override
expiring exactly at the query time is expired and resolution falls to
the lower-precedence sources), but the program never evaluates it: the
client override fetch always returns none, so with the u1 override
expiring exactly at 7 and a 22 percent campaign active at 7 the code
returns the 10.0 default instead of falling through to the campaign. -/
theorem C6_expiry_dead :
    (∀ (c : ClientOverride) (t : ℤ), c.expires_at = some t → notExpired c t = false) ∧
    isActiveGlobalAt gBoundary 7 = true ∧
    expiringOverride.expires_at = some 7 ∧
    fetchClientOverride storeExpiringCampaign "u1" = none ∧
    get_effective_bonus storeExpiringCampaign "u1" 7 =
      ⟨"u1", 0, 10, .default, none⟩ := by
  refine ⟨?_, by decide, rfl, rfl, rfl⟩
  intro c t h
  unfold notExpired
  rw [h]
  simp

/-- Witness for C6: the boundary comparison of the source text rejects
the override expiring exactly at 7. -/
theorem C6_witness : notExpired expiringOverride 7 = false := by
  have h := C6_expiry_dead
  exact h.1 expiringOverride 7 rfl

/-- Claim C7: the claim states the upsert-in-place semantics that the
unreachable branch of create_client_override (lines 322-329) and the
UNIQUE user_id schema constraint document, but the code errors
instead: the user-existence fetch_one is the stub, so every create
request — including one for u1, who exists and already has an override
record — responds not-found, and no override is ever inserted or
updated. -/
theorem C7_create_never_upserts :
    (∀ (s : Store) (nid : String) (d : ClientOverrideCreate),
      create_client_override s nid d = .error .userNotFound) ∧
    (⟨"u1", none⟩ : User) ∈ storeInactive.users ∧
    inactiveOverride ∈ storeInactive.clientOverrides ∧
    create_client_override storeInactive "NEW" upsertInput = .error .userNotFound := by
  exact ⟨fun s nid d => rfl, by decide, by decide, rfl⟩

/-- Claim C9, counterexample: u1 exists and holds a deactivated
override, yet the subsequent create for u1 fails with not-found — the
re-enabling upsert the claim describes never runs, so the deactivated
override is not silently re-enabled. -/
theorem C9_counterexample :
    (⟨"u1", none⟩ : User) ∈ storeInactive.users ∧
    inactiveOverride ∈ storeInactive.clientOverrides ∧
    inactiveOverride.is_active = false ∧
    create_client_override storeInactive "NEW3" upsertInput = .error .userNotFound := by
  exact ⟨by decide, by decide, rfl, rfl⟩

/-- Claim C9 as amended: the upsert UPDATE of create_client_override
(lines 316-329) would set is_active back to TRUE unconditionally, but
it is unreachable — the stubbed existence check fails for every user,
every create request ends in not-found, and execute performs no write
— so the stored deactivated override is never re-enabled. -/
theorem C9_upsert_unreachable :
    storeInactive.clientOverrides = [inactiveOverride] ∧
    inactiveOverride.is_active = false ∧
    ∀ (nid : String) (d : ClientOverrideCreate),
      create_client_override storeInactive nid d = .error .userNotFound := by
  exact ⟨rfl, rfl, fun nid d => rfl⟩

/-- Claim C10, counterexample: storeCapped stores the active Bronze
tier at 42 percent (min 0, so it min-qualifies for any count), yet
my-tier reports the Starter initialization with 10.0 — the walk runs
over the stubbed fetch_all result, which is empty, so no stored tier
is ever reported and the claimed divergence from the effective-bonus
path does not occur (both endpoints give 10). -/
theorem C10_counterexample :
    cappedTier ∈ storeCapped.tiers ∧
    cappedTier.is_active = true ∧
    cappedTier.tier_name = "Bronze" ∧
    cappedTier.bonus_percentage = 42 ∧
    get_my_tier storeCapped "u0" 0 = ⟨0, "Starter", 10, none, none, false, none⟩ ∧
    (get_effective_bonus storeCapped "u0" 0).effective_percentage = 10 := by
  exact ⟨by decide, rfl, rfl, rfl, rfl, rfl⟩

/-- Claim C10 as amended: the my-tier walk runs over the fetch_all
result, which is always empty, so current_tier is always the Starter
initialization with percentage 10.0 and next_tier none; the
effective-bonus resolution likewise always returns the 10.0 default,
so the two endpoints agree for every stored state and time and no
divergence driven by max_referrals can occur. -/
theorem C10_mytier_constant (s : Store) (uid : String) (now : ℤ) :
    get_my_tier s uid now = ⟨0, "Starter", 10, none, none, false, none⟩ ∧
    (get_my_tier s uid now).effective_percentage =
      (get_effective_bonus s uid now).effective_percentage := by
  exact ⟨rfl, rfl⟩

end Deploy

namespace Deploy.Analytics

theorem foldl_addBucket_net (bs : List DailyBucket) :
    ∀ (t : TrendTotals),
      (∀ b ∈ bs, b.net_profit =
        b.deposits - b.withdrawals_paid - b.referral_earnings_paid) →
      t.net_profit = t.deposits - t.withdrawals_paid - t.referral_earnings_paid →
      (bs.foldl addBucket t).net_profit =
        (bs.foldl addBucket t).deposits - (bs.foldl addBucket t).withdrawals_paid -
          (bs.foldl addBucket t).referral_earnings_paid := by
  induction bs with
  | nil =>
    intro t _ ht
    exact ht
  | cons b bs ih =>
    intro t hbs ht
    rw [List.foldl_cons]
    refine ih (addBucket t b) (fun b2 hb2 => hbs b2 (List.mem_cons_of_mem _ hb2)) ?_
    have hb := hbs b (List.mem_cons_self b bs)
    unfold addBucket
    dsimp only
    rw [hb, ht]
    ring

/-- Claim C8: every daily bucket of the platform-trends report
satisfies net_profit = deposits - withdrawals_paid -
referral_earnings_paid exactly, the period totals satisfy the same
identity over the summed buckets, and a bucket whose window matches no
approved order and no paid earning has every numeric field zero rather
than an error or missing fields. -/
theorem C8_net_profit (orders : List Order) (earnings : List ReferralEarning)
    (ranges : List (ℤ × ℤ × String)) :
    (∀ b ∈ (get_platform_trends orders earnings ranges).1,
       b.net_profit = b.deposits - b.withdrawals_paid - b.referral_earnings_paid) ∧
    ((get_platform_trends orders earnings ranges).2.net_profit =
       (get_platform_trends orders earnings ranges).2.deposits -
       (get_platform_trends orders earnings ranges).2.withdrawals_paid -
       (get_platform_trends orders earnings ranges).2.referral_earnings_paid) ∧
    (∀ lo hi label,
       (∀ o ∈ orders, ¬(approvedStatuses.contains o.status = true ∧
          inWindow lo hi o.approved_at = true)) →
       (∀ e ∈ earnings, ¬(paidEarningStatuses.contains e.status = true ∧
          inWindow lo hi e.created_at = true)) →
       mkDailyBucket orders earnings lo hi label =
         ⟨label, 0, 0, 0, 0, 0, 0, 0⟩) := by
  have hbuckets : ∀ b ∈ (get_platform_trends orders earnings ranges).1,
      b.net_profit = b.deposits - b.withdrawals_paid - b.referral_earnings_paid := by
    intro b hb
    rw [get_platform_trends] at hb
    obtain ⟨r, _, hr⟩ := List.mem_map.mp hb
    rw [← hr]
    rfl
  refine ⟨hbuckets, ?_, ?_⟩
  · exact foldl_addBucket_net _ _ hbuckets (by norm_num)
  · intro lo hi label hords hearn
    have hofil : ∀ (types : List String),
        orders.filter (matchesAgg types lo hi) = [] := by
      intro types
      rw [List.filter_eq_nil_iff]
      intro o ho
      intro hmatch
      rw [matchesAgg, Bool.and_eq_true, Bool.and_eq_true] at hmatch
      exact hords o ho ⟨hmatch.1.2, hmatch.2⟩
    have hvfil : orders.filter (fun o => approvedStatuses.contains o.status &&
        inWindow lo hi o.approved_at && decide (0 < o.void_amount)) = [] := by
      rw [List.filter_eq_nil_iff]
      intro o ho
      intro hmatch
      rw [Bool.and_eq_true, Bool.and_eq_true] at hmatch
      exact hords o ho ⟨hmatch.1.1, hmatch.1.2⟩
    have hefil : earnings.filter (fun e => paidEarningStatuses.contains e.status &&
        inWindow lo hi e.created_at) = [] := by
      rw [List.filter_eq_nil_iff]
      intro e he
      intro hmatch
      rw [Bool.and_eq_true] at hmatch
      exact hearn e he ⟨hmatch.1, hmatch.2⟩
    unfold mkDailyBucket deposits withdrawalsPaid bonusIssued bonusVoided
      referralEarningsPaid activeClients sumOver
    rw [hofil depositTypes, hofil withdrawalTypes, hofil loadTypes, hvfil, hefil]
    simp

/-- Witness for C8: the second demo bucket matches nothing and is all
zero. -/
theorem C8_witness :
    mkDailyBucket demoOrders demoEarnings 30 40 "d2" =
      ⟨"d2", 0, 0, 0, 0, 0, 0, 0⟩ := by
  have h := C8_net_profit demoOrders demoEarnings demoRanges
  exact h.2.2 30 40 "d2" (by decide) (by decide)

end Deploy.Analytics
